import Mathlib

/-!
Shallow embedding of the junction reparse-point core (`src/internals.rs`).

Paths handed to the codec are sequences of UTF-16 code units, modelled as
`List Nat` with each unit below 2^16.  The Rust `u16` arithmetic of the
encoder is made explicit: saturating operations become `min`-capped naturals
and the plain (potentially wrapping) additions become addition modulo 2^16.

The filesystem that the four public operations manipulate is modelled as an
association list from opaque path identifiers to directory entries; a
directory entry optionally carries an installed reparse-data buffer.  The
out-of-scope collaborators (directory creation, handle opening, the reparse
get/set control calls) are modelled from the spec, since their code is not
part of the core under verification.
-/

namespace Junction

/-- The reparse-data wire structure (`ReparseDataBuffer`), with the fixed
header fields (`ReparseTag`, `ReparseDataLength`, `Reserved`), the
mount-point sub-header (`SubstituteNameOffset/Length`,
`PrintNameOffset/Length`, all byte counts) and `PathBuffer` as the written
UTF-16 code units. -/
structure ReparseDataBuffer where
  ReparseTag : Nat
  ReparseDataLength : Nat
  Reserved : Nat
  SubstituteNameOffset : Nat
  SubstituteNameLength : Nat
  PrintNameOffset : Nat
  PrintNameLength : Nat
  PathBuffer : List Nat
  deriving DecidableEq, Repr

/-- UTF-16 units of the NT device-qualification prefix `\??\`
(`NT_PREFIX` in `internals.rs`). -/
def NT_PREFIX_W : List Nat := [92, 63, 63, 92]

/-- UTF-16 units of the Win32 verbatim (extended-length) prefix `\\?\`
(`VERBATIM_PREFIX` in `internals.rs`). -/
def VERBATIM_PREFIX_W : List Nat := [92, 92, 63, 92]

/-- `WCHAR_SIZE`: the byte width of one UTF-16 code unit. -/
def WCHAR_SIZE : Nat := 2

/-- `UNICODE_NULL_SIZE`: byte width of one UTF-16 null terminator. -/
def UNICODE_NULL_SIZE : Nat := WCHAR_SIZE

/-- Modelled from the spec: module `c` (not under `src/`) supplies the OS
constants; this is the documented maximum total reparse buffer size
(16 KiB). -/
def MAXIMUM_REPARSE_DATA_BUFFER_SIZE : Nat := 16 * 1024

/-- Modelled from the spec: byte size of the fixed reparse header
(tag 4 bytes + data length 2 bytes + reserved 2 bytes, per the spec's wire
table). -/
def REPARSE_DATA_BUFFER_HEADER_SIZE : Nat := 8

/-- Modelled from the spec: byte size of the mount-point sub-header (four
2-byte offset/length fields, per the spec's wire table). -/
def MOUNT_POINT_REPARSE_BUFFER_HEADER_SIZE : Nat := 8

/-- Modelled from the spec: the mount-point reparse tag constant recognised
by the core (`IO_REPARSE_TAG_MOUNT_POINT`, documented Windows value). -/
def IO_REPARSE_TAG_MOUNT_POINT : Nat := 0xA0000003

/-- `MAX_PATH_BUFFER` from `create`: the maximum payload available for the
two names and their terminators. -/
def MAX_PATH_BUFFER : Nat :=
  MAXIMUM_REPARSE_DATA_BUFFER_SIZE - REPARSE_DATA_BUFFER_HEADER_SIZE -
    MOUNT_POINT_REPARSE_BUFFER_HEADER_SIZE

/-- `u16::MAX`. -/
def U16_MAX : Nat := 65535

/-- `u16::saturating_add`. -/
def satAdd16 (a b : Nat) : Nat := min (a + b) U16_MAX

/-- `u16::saturating_mul`. -/
def satMul16 (a b : Nat) : Nat := min (a * b) U16_MAX

/-- Plain `u16` addition (wraps modulo 2^16, as Rust release builds do). -/
def add16 (a b : Nat) : Nat := (a + b) % 65536

/-- `slice::strip_prefix(pre).unwrap_or(l)`: drop `pre` from the front of
`l` when `l` begins with it, otherwise return `l` unchanged. -/
def stripPrefixOr (pre l : List Nat) : List Nat :=
  if pre.isPrefixOf l = true then l.drop pre.length else l

/-- `substitute_len_in_bytes` in `create`: byte length of
`"\??\" + target`, length-capped at `u16::MAX` and saturating on the
multiply by the unit width. -/
def substituteLenInBytes (target : List Nat) : Nat :=
  satMul16 (min (NT_PREFIX_W.length + target.length) U16_MAX) WCHAR_SIZE

/-- `print_name_len_in_bytes` in `create`: byte length of the target alone,
with the same capping. -/
def printNameLenInBytes (target : List Nat) : Nat :=
  satMul16 (min target.length U16_MAX) WCHAR_SIZE

/-- `total_path_buffer` in `create`: both names plus their null
terminators, accumulated with `saturating_add`. -/
def totalPathBuffer (target : List Nat) : Nat :=
  satAdd16 (satAdd16 (satAdd16 (substituteLenInBytes target) UNICODE_NULL_SIZE)
    (printNameLenInBytes target)) UNICODE_NULL_SIZE

/-- Error kinds the core distinguishes (`io::ErrorKind` values it uses). -/
inductive IoErrorKind where
  | notFound
  | invalidInput
  | alreadyExists
  | otherErr
  deriving DecidableEq, Repr

/-- An `io::Error`: a kind plus its message. -/
structure IoError where
  kind : IoErrorKind
  msg : String
  deriving DecidableEq, Repr

/-- The encode direction of `create` (lines 41-105 of `internals.rs`),
applied to the already verbatim-stripped target: the size check, then the
field writes and the `PathBuffer` contents
(substitute name `"\??\" + target`, null, print name `target`, null), and
the transmitted byte count `size.wrapping_add(header)`.  The plain `u16`
additions of the source are rendered as `add16`. -/
def encodeReparseData (target : List Nat) :
    Except IoError (ReparseDataBuffer × Nat) :=
  if totalPathBuffer target > MAX_PATH_BUFFER then
    .error ⟨.invalidInput, "`target` is too long"⟩
  else
    .ok ({ ReparseTag := IO_REPARSE_TAG_MOUNT_POINT
           ReparseDataLength :=
             add16 (add16 (add16 (add16 MOUNT_POINT_REPARSE_BUFFER_HEADER_SIZE
               (substituteLenInBytes target)) UNICODE_NULL_SIZE)
               (printNameLenInBytes target)) UNICODE_NULL_SIZE
           Reserved := 0
           SubstituteNameOffset := 0
           SubstituteNameLength := substituteLenInBytes target
           PrintNameOffset := add16 (substituteLenInBytes target) UNICODE_NULL_SIZE
           PrintNameLength := printNameLenInBytes target
           PathBuffer := NT_PREFIX_W ++ target ++ [0] ++ target ++ [0] },
         add16 (add16 (add16 (add16 (add16 MOUNT_POINT_REPARSE_BUFFER_HEADER_SIZE
           (substituteLenInBytes target)) UNICODE_NULL_SIZE)
           (printNameLenInBytes target)) UNICODE_NULL_SIZE)
           REPARSE_DATA_BUFFER_HEADER_SIZE)

/-- A filesystem directory entry: a directory, optionally carrying
installed reparse data. -/
inductive Entry where
  | dir : Option ReparseDataBuffer → Entry
  deriving DecidableEq, Repr

/-- The filesystem: an association list from opaque path identifiers to
entries. -/
abbrev Fs := List (Nat × Entry)

/-- Look up the entry at a path. -/
def Fs.lookupEntry : Fs → Nat → Option Entry
  | [], _ => none
  | (k, e) :: rest, p => if k = p then some e else Fs.lookupEntry rest p

/-- Replace the entry at a path (appending when absent). -/
def Fs.setEntry : Fs → Nat → Entry → Fs
  | [], p, e => [(p, e)]
  | (k, e0) :: rest, p, e =>
      if k = p then (p, e) :: rest else (k, e0) :: Fs.setEntry rest p e

/-- Modelled from the spec: `fs::create_dir` (an external collaborator) —
fails with an already-exists condition when the path has an entry,
otherwise adds a plain directory entry. -/
def create_dir (fs : Fs) (p : Nat) : Except IoError Fs :=
  match fs.lookupEntry p with
  | some _ => .error ⟨.alreadyExists, "Cannot create a file when that file already exists."⟩
  | none => .ok (fs.setEntry p (.dir none))

/-- Modelled from the spec: `helpers::open_reparse_point` (an external
collaborator, not under `src/`) — opening a handle configured for
reparse-point manipulation succeeds exactly when the path has an entry. -/
def open_reparse_point (fs : Fs) (p : Nat) : Except IoError Unit :=
  match fs.lookupEntry p with
  | some _ => .ok ()
  | none => .error ⟨.notFound, "cannot open path"⟩

/-- A zero-filled reparse buffer: what fetching reparse data yields for an
entry that carries none (its tag, 0, is not the mount-point tag). -/
def emptyReparseBuffer : ReparseDataBuffer :=
  { ReparseTag := 0, ReparseDataLength := 0, Reserved := 0,
    SubstituteNameOffset := 0, SubstituteNameLength := 0,
    PrintNameOffset := 0, PrintNameLength := 0, PathBuffer := [] }

/-- Modelled from the spec: `helpers::get_reparse_data_point` (an external
collaborator, not under `src/`) — fills the caller's buffer with the
entry's reparse data.  Per the spec (§4.4: a plain directory yields
`false`/"not a junction", not an error), an entry with no installed
reparse data yields a buffer whose tag is not the mount-point tag. -/
def get_reparse_data_point (fs : Fs) (p : Nat) :
    Except IoError ReparseDataBuffer :=
  match fs.lookupEntry p with
  | some (.dir (some b)) => .ok b
  | some (.dir none) => .ok emptyReparseBuffer
  | none => .error ⟨.notFound, "cannot read reparse data"⟩

/-- Modelled from the spec: `helpers::set_reparse_point` (an external
collaborator, not under `src/`) — installs the buffer on the entry. -/
def set_reparse_point (fs : Fs) (p : Nat) (b : ReparseDataBuffer) : Fs :=
  fs.setEntry p (.dir (some b))

/-- `create` (`internals.rs` lines 25-108), taking the target as the UTF-16
units returned by the out-of-scope path normalizer
(`helpers::get_full_path`).  Order is that of the source: strip the
verbatim prefix, create the directory, open the reparse handle, then run
the size check and encode, and finally install the buffer.  The resulting
filesystem is returned alongside the result, so that state left behind on
failure is observable. -/
def create (target : List Nat) (junction : Nat) (fs : Fs) :
    Except IoError Unit × Fs :=
  let t := stripPrefixOr VERBATIM_PREFIX_W target
  match create_dir fs junction with
  | .error e => (.error e, fs)
  | .ok fs1 =>
    match open_reparse_point fs1 junction with
    | .error e => (.error e, fs1)
    | .ok _ =>
      match encodeReparseData t with
      | .error e => (.error e, fs1)
      | .ok (rdb, _inBufferSize) => (.ok (), set_reparse_point fs1 junction rdb)

/-- `exists` (`internals.rs` lines 115-129): absent paths give
`Ok(false)`; otherwise open, fetch the reparse data and compare the tag
against the mount-point tag. -/
def «exists» (junction : Nat) (fs : Fs) : Except IoError Bool :=
  if (fs.lookupEntry junction).isSome = false then .ok false
  else
    match open_reparse_point fs junction with
    | .error e => .error e
    | .ok _ =>
      match get_reparse_data_point fs junction with
      | .error e => .error e
      | .ok rdb => .ok (rdb.ReparseTag == IO_REPARSE_TAG_MOUNT_POINT)

/-- `get_target` (`internals.rs` lines 131-154): absent paths fail with a
not-found error; a non-mount-point tag fails with the distinct "not a
reparse tag mount point" error; otherwise the substitute name is sliced
out of `PathBuffer` using `SubstituteNameOffset/Length` (converted from
bytes to units) and the NT prefix, when present, is stripped. -/
def get_target (junction : Nat) (fs : Fs) : Except IoError (List Nat) :=
  if (fs.lookupEntry junction).isSome = false then
    .error ⟨.notFound, "`junction` does not exist"⟩
  else
    match open_reparse_point fs junction with
    | .error e => .error e
    | .ok _ =>
      match get_reparse_data_point fs junction with
      | .error e => .error e
      | .ok rdb =>
        if rdb.ReparseTag = IO_REPARSE_TAG_MOUNT_POINT then
          .ok (stripPrefixOr NT_PREFIX_W
            ((rdb.PathBuffer.drop (rdb.SubstituteNameOffset / WCHAR_SIZE)).take
              (rdb.SubstituteNameLength / WCHAR_SIZE)))
        else .error ⟨.otherErr, "not a reparse tag mount point"⟩

/-! Helper lemmas -/

/-- The buffer `create` transmits for an (already verbatim-stripped) target
that passes the size check, with the arithmetic carried out. -/
def mkJunctionBuffer (t : List Nat) : ReparseDataBuffer :=
  { ReparseTag := IO_REPARSE_TAG_MOUNT_POINT
    ReparseDataLength := 4 * t.length + 20
    Reserved := 0
    SubstituteNameOffset := 0
    SubstituteNameLength := 2 * t.length + 8
    PrintNameOffset := 2 * t.length + 10
    PrintNameLength := 2 * t.length
    PathBuffer := NT_PREFIX_W ++ t ++ [0] ++ t ++ [0] }

/-- A reparse buffer of some non-mount-point kind, for exercising the
"other reparse kind" cases. -/
def otherReparseBuffer : ReparseDataBuffer :=
  { emptyReparseBuffer with ReparseTag := 5 }

/-- A sample filesystem with a junction at 1, another reparse kind at 2, a
plain directory at 3 and nothing at 0. -/
def sampleFs : Fs :=
  [(1, .dir (some (mkJunctionBuffer [67]))),
    (2, .dir (some otherReparseBuffer)),
    (3, .dir none)]

lemma accept_iff (t : List Nat) :
    totalPathBuffer t ≤ MAX_PATH_BUFFER ↔ t.length ≤ 4089 := by
  simp only [totalPathBuffer, satAdd16, satMul16, substituteLenInBytes,
    printNameLenInBytes, UNICODE_NULL_SIZE, WCHAR_SIZE, U16_MAX, NT_PREFIX_W,
    MAX_PATH_BUFFER, MAXIMUM_REPARSE_DATA_BUFFER_SIZE,
    REPARSE_DATA_BUFFER_HEADER_SIZE, MOUNT_POINT_REPARSE_BUFFER_HEADER_SIZE,
    List.length_cons, List.length_nil]
  omega

lemma substituteLenInBytes_eq (t : List Nat) (h : t.length ≤ 4089) :
    substituteLenInBytes t = 2 * t.length + 8 := by
  simp only [substituteLenInBytes, satMul16, U16_MAX, WCHAR_SIZE, NT_PREFIX_W,
    List.length_cons, List.length_nil]
  omega

lemma printNameLenInBytes_eq (t : List Nat) (h : t.length ≤ 4089) :
    printNameLenInBytes t = 2 * t.length := by
  simp only [printNameLenInBytes, satMul16, U16_MAX, WCHAR_SIZE]
  omega

lemma encode_eq_ok (t : List Nat) (h : t.length ≤ 4089) :
    encodeReparseData t = .ok (mkJunctionBuffer t, 4 * t.length + 28) := by
  have hacc : ¬ totalPathBuffer t > MAX_PATH_BUFFER := by
    have := (accept_iff t).mpr h
    omega
  rw [encodeReparseData, if_neg hacc, substituteLenInBytes_eq t h,
    printNameLenInBytes_eq t h]
  simp only [mkJunctionBuffer, add16, UNICODE_NULL_SIZE, WCHAR_SIZE,
    MOUNT_POINT_REPARSE_BUFFER_HEADER_SIZE, REPARSE_DATA_BUFFER_HEADER_SIZE,
    Except.ok.injEq, Prod.mk.injEq, ReparseDataBuffer.mk.injEq, true_and,
    and_true]
  omega

lemma encode_ok_inv (t : List Nat) (b : ReparseDataBuffer) (n : Nat)
    (h : encodeReparseData t = .ok (b, n)) :
    t.length ≤ 4089 ∧ b = mkJunctionBuffer t ∧ n = 4 * t.length + 28 := by
  by_cases hlen : t.length ≤ 4089
  · rw [encode_eq_ok t hlen] at h
    simp only [Except.ok.injEq, Prod.mk.injEq] at h
    exact ⟨hlen, h.1.symm, h.2.symm⟩
  · exfalso
    have hacc : totalPathBuffer t > MAX_PATH_BUFFER := by
      have h2 : ¬ totalPathBuffer t ≤ MAX_PATH_BUFFER :=
        fun hh => hlen ((accept_iff t).mp hh)
      omega
    rw [encodeReparseData, if_pos hacc] at h
    exact Except.noConfusion h

lemma isPrefixOf_append_self (pre l : List Nat) :
    pre.isPrefixOf (pre ++ l) = true := by
  induction pre with
  | nil => simp [List.isPrefixOf]
  | cons a as ih => simp [List.isPrefixOf, ih]

lemma stripPrefixOr_append_self (pre l : List Nat) :
    stripPrefixOr pre (pre ++ l) = l := by
  simp [stripPrefixOr, isPrefixOf_append_self, List.drop_left]

lemma stripPrefixOr_of_neg (pre l : List Nat) (h : pre.isPrefixOf l = false) :
    stripPrefixOr pre l = l := by
  simp [stripPrefixOr, h]

lemma lookupEntry_setEntry_self (fs : Fs) (p : Nat) (e : Entry) :
    (fs.setEntry p e).lookupEntry p = some e := by
  induction fs with
  | nil => simp [Fs.setEntry, Fs.lookupEntry]
  | cons hd tl ih =>
      obtain ⟨k, e0⟩ := hd
      by_cases hk : k = p
      · simp [Fs.setEntry, Fs.lookupEntry, hk]
      · simp [Fs.setEntry, Fs.lookupEntry, hk, ih]

lemma exists_of_buffer (fs : Fs) (j : Nat) (b : ReparseDataBuffer)
    (hb : fs.lookupEntry j = some (.dir (some b))) :
    «exists» j fs = .ok (b.ReparseTag == IO_REPARSE_TAG_MOUNT_POINT) := by
  simp [«exists», hb, open_reparse_point, get_reparse_data_point]

lemma get_target_of_buffer (fs : Fs) (j : Nat) (b : ReparseDataBuffer)
    (hb : fs.lookupEntry j = some (.dir (some b)))
    (ht : b.ReparseTag = IO_REPARSE_TAG_MOUNT_POINT) :
    get_target j fs = .ok (stripPrefixOr NT_PREFIX_W
      ((b.PathBuffer.drop (b.SubstituteNameOffset / WCHAR_SIZE)).take
        (b.SubstituteNameLength / WCHAR_SIZE))) := by
  simp [get_target, hb, open_reparse_point, get_reparse_data_point, ht]

lemma decode_mkJunctionBuffer (t : List Nat) :
    stripPrefixOr NT_PREFIX_W
      (((mkJunctionBuffer t).PathBuffer.drop
        ((mkJunctionBuffer t).SubstituteNameOffset / WCHAR_SIZE)).take
        ((mkJunctionBuffer t).SubstituteNameLength / WCHAR_SIZE)) = t := by
  have hdiv : (2 * t.length + 8) / 2 = t.length + 4 := by omega
  simp only [mkJunctionBuffer, WCHAR_SIZE, Nat.zero_div, List.drop_zero, hdiv]
  have hassoc : NT_PREFIX_W ++ t ++ [0] ++ t ++ [0] =
      (NT_PREFIX_W ++ t) ++ ([0] ++ t ++ [0]) := by
    simp [List.append_assoc]
  have hlen : (NT_PREFIX_W ++ t).length = t.length + 4 := by
    simp only [List.length_append, NT_PREFIX_W, List.length_cons,
      List.length_nil]
    omega
  rw [hassoc, List.take_left' hlen, stripPrefixOr_append_self]

lemma create_fresh (t : List Nat) (j : Nat) (fs : Fs)
    (hfresh : fs.lookupEntry j = none)
    (hlen : (stripPrefixOr VERBATIM_PREFIX_W t).length ≤ 4089) :
    create t j fs = (.ok (),
      (fs.setEntry j (.dir none)).setEntry j
        (.dir (some (mkJunctionBuffer (stripPrefixOr VERBATIM_PREFIX_W t))))) := by
  have henc := encode_eq_ok _ hlen
  simp [create, create_dir, hfresh, open_reparse_point,
    lookupEntry_setEntry_self, henc, set_reparse_point]

lemma create_too_long (t : List Nat) (j : Nat) (fs : Fs)
    (hfresh : fs.lookupEntry j = none)
    (hlen : totalPathBuffer (stripPrefixOr VERBATIM_PREFIX_W t) > MAX_PATH_BUFFER) :
    create t j fs = (.error ⟨.invalidInput, "`target` is too long"⟩,
      fs.setEntry j (.dir none)) := by
  simp [create, create_dir, hfresh, open_reparse_point,
    lookupEntry_setEntry_self, encodeReparseData, hlen]

lemma stripPrefixOr_of_pos (pre l : List Nat) (h : pre.isPrefixOf l = true) :
    stripPrefixOr pre l = l.drop pre.length := by
  simp [stripPrefixOr, h]

lemma take_substitute (t : List Nat) :
    (mkJunctionBuffer t).PathBuffer.take
      ((mkJunctionBuffer t).SubstituteNameLength / WCHAR_SIZE) =
      NT_PREFIX_W ++ t := by
  have hdiv : (2 * t.length + 8) / 2 = t.length + 4 := by omega
  simp only [mkJunctionBuffer, WCHAR_SIZE, hdiv]
  have hassoc : NT_PREFIX_W ++ t ++ [0] ++ t ++ [0] =
      (NT_PREFIX_W ++ t) ++ ([0] ++ t ++ [0]) := by
    simp [List.append_assoc]
  have hlen : (NT_PREFIX_W ++ t).length = t.length + 4 := by
    simp only [List.length_append, NT_PREFIX_W, List.length_cons,
      List.length_nil]
    omega
  rw [hassoc, List.take_left' hlen]

lemma create_ok_inv (t : List Nat) (j : Nat) (fs : Fs)
    (h : (create t j fs).1 = .ok ()) :
    fs.lookupEntry j = none ∧
      (stripPrefixOr VERBATIM_PREFIX_W t).length ≤ 4089 := by
  cases hl : fs.lookupEntry j with
  | some e => simp [create, create_dir, hl] at h
  | none =>
      refine ⟨rfl, ?_⟩
      by_cases hlen : (stripPrefixOr VERBATIM_PREFIX_W t).length ≤ 4089
      · exact hlen
      · exfalso
        have hacc : totalPathBuffer (stripPrefixOr VERBATIM_PREFIX_W t) >
            MAX_PATH_BUFFER := by
          have h2 : ¬ totalPathBuffer (stripPrefixOr VERBATIM_PREFIX_W t) ≤
              MAX_PATH_BUFFER :=
            fun hh => hlen ((accept_iff _).mp hh)
          omega
        rw [create_too_long t j fs hl hacc] at h
        simp at h

/-! Claims -/

/-- Claim C2, counterexample: the zero-length normalized target (legal
codec input per the spec) is accepted by the encode direction, yet the
buffer it produces has `PrintNameLength = 0`, i.e. an empty decoded print
name — contradicting "the decoded print name is never empty" for every
accepted target. -/
theorem c2_counterexample :
    encodeReparseData [] =
      .ok ({ ReparseTag := IO_REPARSE_TAG_MOUNT_POINT, ReparseDataLength := 20,
             Reserved := 0, SubstituteNameOffset := 0, SubstituteNameLength := 8,
             PrintNameOffset := 10, PrintNameLength := 0,
             PathBuffer := [92, 63, 63, 92, 0, 0] }, 28) := by
  rfl

/-- Claim C2 (amended): for every target accepted by `create` whose
normalized, verbatim-stripped form is non-empty, the installed reparse
buffer has `PrintNameLength > 0`, so the decoded print name is non-empty.
-/
theorem c2_amended_print_name (t : List Nat) (j : Nat) (fs : Fs)
    (b : ReparseDataBuffer)
    (hok : (create t j fs).1 = .ok ())
    (hb : ((create t j fs).2).lookupEntry j = some (.dir (some b)))
    (hne : stripPrefixOr VERBATIM_PREFIX_W t ≠ []) :
    0 < b.PrintNameLength := by
  obtain ⟨hl, hlen⟩ := create_ok_inv t j fs hok
  rw [create_fresh t j fs hl hlen, lookupEntry_setEntry_self] at hb
  simp only [Option.some.injEq, Entry.dir.injEq] at hb
  have hpos : 0 < (stripPrefixOr VERBATIM_PREFIX_W t).length :=
    List.length_pos.mpr hne
  rw [← hb]
  simp only [mkJunctionBuffer]
  omega

/-- Claim C2 witness: a one-unit target yields a positive print-name
length. -/
theorem c2_amended_print_name_witness :
    0 < (mkJunctionBuffer [67]).PrintNameLength :=
  c2_amended_print_name [67] 0 [] (mkJunctionBuffer [67]) rfl rfl (by decide)

/-- Claim C3: the encoded buffer satisfies the layout invariants:
`SubstituteNameOffset = 0`, `PrintNameOffset = SubstituteNameLength + 2`,
and `PathBuffer` holds, back to back, the substitute name (device prefix
followed by the target), a null terminator, the print name (the target
alone) and a null terminator, the two byte lengths bounding exactly those
name regions. -/
theorem c3_layout (t : List Nat) (b : ReparseDataBuffer) (n : Nat)
    (h : encodeReparseData t = .ok (b, n)) :
    b.SubstituteNameOffset = 0 ∧
      b.PrintNameOffset = b.SubstituteNameLength + UNICODE_NULL_SIZE ∧
      b.PathBuffer = (NT_PREFIX_W ++ t) ++ [0] ++ t ++ [0] ∧
      b.SubstituteNameLength = WCHAR_SIZE * (NT_PREFIX_W ++ t).length ∧
      b.PrintNameLength = WCHAR_SIZE * t.length := by
  obtain ⟨hlen, hb, -⟩ := encode_ok_inv t b n h
  subst hb
  refine ⟨rfl, ?_, ?_, ?_, ?_⟩
  · simp only [mkJunctionBuffer, UNICODE_NULL_SIZE, WCHAR_SIZE]
  · simp [mkJunctionBuffer, List.append_assoc]
  · simp only [mkJunctionBuffer, WCHAR_SIZE, List.length_append, NT_PREFIX_W,
      List.length_cons, List.length_nil]
    omega
  · simp only [mkJunctionBuffer, WCHAR_SIZE]

/-- Claim C3 witness at the one-unit target. -/
theorem c3_layout_witness :
    (mkJunctionBuffer [67]).SubstituteNameOffset = 0 ∧
      (mkJunctionBuffer [67]).PrintNameOffset =
        (mkJunctionBuffer [67]).SubstituteNameLength + UNICODE_NULL_SIZE ∧
      (mkJunctionBuffer [67]).PathBuffer =
        (NT_PREFIX_W ++ [67]) ++ [0] ++ [67] ++ [0] ∧
      (mkJunctionBuffer [67]).SubstituteNameLength =
        WCHAR_SIZE * (NT_PREFIX_W ++ [67]).length ∧
      (mkJunctionBuffer [67]).PrintNameLength = WCHAR_SIZE * [67].length :=
  c3_layout [67] (mkJunctionBuffer [67]) 32 rfl

/-- Claim C4, counterexample: for an oversized target, `create` does fail
with the input-too-long (invalid-input) error, but only after the
directory entry has been created and the reparse handle opened — the
resulting filesystem holds the bare directory, refuting "no directory
entry is created and no handle-open ... is attempted". -/
theorem c4_counterexample :
    create (List.replicate 4090 97) 0 [] =
      (.error ⟨.invalidInput, "`target` is too long"⟩,
        [(0, Entry.dir none)]) := by
  have hstrip : stripPrefixOr VERBATIM_PREFIX_W (List.replicate 4090 97) =
      List.replicate 4090 97 :=
    stripPrefixOr_of_neg _ _ (by decide)
  have hbig : totalPathBuffer
      (stripPrefixOr VERBATIM_PREFIX_W (List.replicate 4090 97)) >
      MAX_PATH_BUFFER := by
    rw [hstrip]
    have hgt : ¬ totalPathBuffer (List.replicate 4090 (97 : Nat)) ≤
        MAX_PATH_BUFFER := by
      intro hh
      have hlen := (accept_iff _).mp hh
      rw [List.length_replicate] at hlen
      omega
    omega
  rw [create_too_long (List.replicate 4090 97) 0 [] rfl hbig]
  rfl

/-- Claim C4 (amended): a target whose encoded payload exceeds the maximum
is rejected with the input-too-long error before any reparse installation:
the junction path is left as a bare directory entry with no reparse data
(directory creation and handle-open having already taken place). -/
theorem c4_amended_too_long (t : List Nat) (j : Nat) (fs : Fs)
    (hfresh : fs.lookupEntry j = none)
    (hbig : totalPathBuffer (stripPrefixOr VERBATIM_PREFIX_W t) >
      MAX_PATH_BUFFER) :
    (create t j fs).1 = .error ⟨.invalidInput, "`target` is too long"⟩ ∧
      (create t j fs).2 = fs.setEntry j (.dir none) ∧
      ((create t j fs).2).lookupEntry j = some (.dir none) := by
  rw [create_too_long t j fs hfresh hbig]
  exact ⟨rfl, rfl, lookupEntry_setEntry_self _ _ _⟩

/-- Claim C4 witness: a concrete 8101-unit target is oversized and
rejected, leaving the bare directory. -/
theorem c4_amended_too_long_witness :
    (create (List.replicate 4091 97) 1 []).1 =
        .error ⟨.invalidInput, "`target` is too long"⟩ ∧
      (create (List.replicate 4091 97) 1 []).2 =
        Fs.setEntry [] 1 (.dir none) ∧
      ((create (List.replicate 4091 97) 1 []).2).lookupEntry 1 =
        some (.dir none) :=
  c4_amended_too_long (List.replicate 4091 97) 1 [] rfl (by
    rw [stripPrefixOr_of_neg _ _ (by decide)]
    have hgt : ¬ totalPathBuffer (List.replicate 4091 (97 : Nat)) ≤
        MAX_PATH_BUFFER := by
      intro hh
      have hlen := (accept_iff _).mp hh
      rw [List.length_replicate] at hlen
      omega
    omega)

/-- Claim C5: the encode-direction arithmetic never silently wraps its
16-bit type: the saturating length computations stay at or below
`u16::MAX`, and once the size check passes, the plain `u16` additions for
`PrintNameOffset`, `ReparseDataLength` and the transmitted buffer size are
all strictly below 2^16, so reduction modulo 2^16 changes none of them. -/
theorem c5_no_overflow (t : List Nat) :
    substituteLenInBytes t ≤ U16_MAX ∧
      printNameLenInBytes t ≤ U16_MAX ∧
      totalPathBuffer t ≤ U16_MAX ∧
      (totalPathBuffer t ≤ MAX_PATH_BUFFER →
        substituteLenInBytes t + UNICODE_NULL_SIZE < 65536 ∧
          add16 (substituteLenInBytes t) UNICODE_NULL_SIZE =
            substituteLenInBytes t + UNICODE_NULL_SIZE ∧
          MOUNT_POINT_REPARSE_BUFFER_HEADER_SIZE + substituteLenInBytes t +
              UNICODE_NULL_SIZE + printNameLenInBytes t + UNICODE_NULL_SIZE <
            65536 ∧
          MOUNT_POINT_REPARSE_BUFFER_HEADER_SIZE + substituteLenInBytes t +
              UNICODE_NULL_SIZE + printNameLenInBytes t + UNICODE_NULL_SIZE +
              REPARSE_DATA_BUFFER_HEADER_SIZE < 65536) := by
  refine ⟨?_, ?_, ?_, fun hacc => ?_⟩
  · simp only [substituteLenInBytes, satMul16]
    exact Nat.min_le_right _ _
  · simp only [printNameLenInBytes, satMul16]
    exact Nat.min_le_right _ _
  · simp only [totalPathBuffer, satAdd16]
    exact Nat.min_le_right _ _
  · have hlen := (accept_iff t).mp hacc
    rw [substituteLenInBytes_eq t hlen, printNameLenInBytes_eq t hlen]
    simp only [add16, UNICODE_NULL_SIZE, WCHAR_SIZE,
      MOUNT_POINT_REPARSE_BUFFER_HEADER_SIZE, REPARSE_DATA_BUFFER_HEADER_SIZE]
    omega

/-- Claim C5 witness: at the one-unit target the size check passes and the
`PrintNameOffset` addition is exact (no wrap). -/
theorem c5_no_overflow_witness :
    add16 (substituteLenInBytes [67]) UNICODE_NULL_SIZE =
      substituteLenInBytes [67] + UNICODE_NULL_SIZE :=
  ((c5_no_overflow [67]).2.2.2 (by decide)).2.1

/-- Claim C9: `create` strips the 4-unit verbatim (extended-length) prefix
from the normalized target before prepending the device-qualification
prefix, leaves a verbatim-free path unmodified, and — for inputs carrying
at most one leading verbatim prefix — the stored substitute name never
carries the verbatim prefix after its device prefix (no double-prefixing).
-/
theorem c9_no_double_prefixing (t : List Nat) (b : ReparseDataBuffer)
    (n : Nat)
    (h : encodeReparseData (stripPrefixOr VERBATIM_PREFIX_W t) = .ok (b, n)) :
    b.PathBuffer.take (b.SubstituteNameLength / WCHAR_SIZE) =
        NT_PREFIX_W ++ stripPrefixOr VERBATIM_PREFIX_W t ∧
      (VERBATIM_PREFIX_W.isPrefixOf t = true →
        stripPrefixOr VERBATIM_PREFIX_W t = t.drop VERBATIM_PREFIX_W.length) ∧
      (VERBATIM_PREFIX_W.isPrefixOf t = false →
        stripPrefixOr VERBATIM_PREFIX_W t = t) ∧
      (VERBATIM_PREFIX_W.isPrefixOf (t.drop VERBATIM_PREFIX_W.length) =
          false →
        VERBATIM_PREFIX_W.isPrefixOf
          ((NT_PREFIX_W ++ stripPrefixOr VERBATIM_PREFIX_W t).drop
            NT_PREFIX_W.length) = false) := by
  obtain ⟨hlen, hb, -⟩ := encode_ok_inv _ b n h
  subst hb
  refine ⟨take_substitute _, fun hv => stripPrefixOr_of_pos _ _ hv,
    fun hv => stripPrefixOr_of_neg _ _ hv, fun hnd => ?_⟩
  rw [List.drop_left]
  cases hv : VERBATIM_PREFIX_W.isPrefixOf t with
  | false => rw [stripPrefixOr_of_neg _ _ hv]; exact hv
  | true => rw [stripPrefixOr_of_pos _ _ hv]; exact hnd

/-- Claim C9 witness: a verbatim-prefixed one-unit target is stripped and
stored with only the device prefix. -/
theorem c9_no_double_prefixing_witness :
    (mkJunctionBuffer [67]).PathBuffer.take
        ((mkJunctionBuffer [67]).SubstituteNameLength / WCHAR_SIZE) =
        NT_PREFIX_W ++ stripPrefixOr VERBATIM_PREFIX_W [92, 92, 63, 92, 67] ∧
      (VERBATIM_PREFIX_W.isPrefixOf [92, 92, 63, 92, 67] = true →
        stripPrefixOr VERBATIM_PREFIX_W [92, 92, 63, 92, 67] =
          List.drop VERBATIM_PREFIX_W.length [92, 92, 63, 92, 67]) ∧
      (VERBATIM_PREFIX_W.isPrefixOf [92, 92, 63, 92, 67] = false →
        stripPrefixOr VERBATIM_PREFIX_W [92, 92, 63, 92, 67] =
          [92, 92, 63, 92, 67]) ∧
      (VERBATIM_PREFIX_W.isPrefixOf
          (List.drop VERBATIM_PREFIX_W.length [92, 92, 63, 92, 67]) = false →
        VERBATIM_PREFIX_W.isPrefixOf
          ((NT_PREFIX_W ++
            stripPrefixOr VERBATIM_PREFIX_W [92, 92, 63, 92, 67]).drop
              NT_PREFIX_W.length) = false) :=
  c9_no_double_prefixing [92, 92, 63, 92, 67] (mkJunctionBuffer [67]) 32 rfl

/-- Claim C10: every length and offset value written into the buffer for an
accepted target (`SubstituteNameLength`, `PrintNameLength`,
`PrintNameOffset`, `ReparseDataLength`) is a whole multiple of the 2-byte
unit width, so dividing by the unit width loses no information. -/
theorem c10_unit_multiples (t : List Nat) (b : ReparseDataBuffer) (n : Nat)
    (h : encodeReparseData t = .ok (b, n)) :
    b.SubstituteNameLength % WCHAR_SIZE = 0 ∧
      b.PrintNameLength % WCHAR_SIZE = 0 ∧
      b.PrintNameOffset % WCHAR_SIZE = 0 ∧
      b.ReparseDataLength % WCHAR_SIZE = 0 ∧
      WCHAR_SIZE * (b.SubstituteNameLength / WCHAR_SIZE) =
        b.SubstituteNameLength ∧
      WCHAR_SIZE * (b.PrintNameLength / WCHAR_SIZE) = b.PrintNameLength ∧
      WCHAR_SIZE * (b.PrintNameOffset / WCHAR_SIZE) = b.PrintNameOffset ∧
      WCHAR_SIZE * (b.ReparseDataLength / WCHAR_SIZE) = b.ReparseDataLength := by
  obtain ⟨hlen, hb, -⟩ := encode_ok_inv t b n h
  subst hb
  simp only [mkJunctionBuffer, WCHAR_SIZE]
  omega

/-- Claim C10 witness at the one-unit target. -/
theorem c10_unit_multiples_witness :
    (mkJunctionBuffer [67]).SubstituteNameLength % WCHAR_SIZE = 0 ∧
      (mkJunctionBuffer [67]).PrintNameLength % WCHAR_SIZE = 0 ∧
      (mkJunctionBuffer [67]).PrintNameOffset % WCHAR_SIZE = 0 ∧
      (mkJunctionBuffer [67]).ReparseDataLength % WCHAR_SIZE = 0 ∧
      WCHAR_SIZE * ((mkJunctionBuffer [67]).SubstituteNameLength / WCHAR_SIZE) =
        (mkJunctionBuffer [67]).SubstituteNameLength ∧
      WCHAR_SIZE * ((mkJunctionBuffer [67]).PrintNameLength / WCHAR_SIZE) =
        (mkJunctionBuffer [67]).PrintNameLength ∧
      WCHAR_SIZE * ((mkJunctionBuffer [67]).PrintNameOffset / WCHAR_SIZE) =
        (mkJunctionBuffer [67]).PrintNameOffset ∧
      WCHAR_SIZE * ((mkJunctionBuffer [67]).ReparseDataLength / WCHAR_SIZE) =
        (mkJunctionBuffer [67]).ReparseDataLength :=
  c10_unit_multiples [67] (mkJunctionBuffer [67]) 32 rfl

/-- Claim C1: round trip — whenever `create` succeeds for a target and a
fresh junction path, `exists` subsequently reports `true` there, and
`get_target` returns the target normalized for prefix differences (the
verbatim prefix stripped on write; the device-qualification prefix added
on write is stripped again on read). -/
theorem c1_round_trip (t : List Nat) (j : Nat) (fs : Fs)
    (h : (create t j fs).1 = .ok ()) :
    «exists» j (create t j fs).2 = .ok true ∧
      get_target j (create t j fs).2 =
        .ok (stripPrefixOr VERBATIM_PREFIX_W t) := by
  obtain ⟨hl, hlen⟩ := create_ok_inv t j fs h
  rw [create_fresh t j fs hl hlen]
  have hb := lookupEntry_setEntry_self (Fs.setEntry fs j (.dir none)) j
    (.dir (some (mkJunctionBuffer (stripPrefixOr VERBATIM_PREFIX_W t))))
  constructor
  · rw [exists_of_buffer _ _ _ hb]
    simp [mkJunctionBuffer]
  · rw [get_target_of_buffer _ _ _ hb rfl, decode_mkJunctionBuffer]

/-- Claim C1 witness at the target `"C:\x"` (units `[67, 58, 92, 120]`). -/
theorem c1_round_trip_witness :
    «exists» 0 (create [67, 58, 92, 120] 0 []).2 = .ok true ∧
      get_target 0 (create [67, 58, 92, 120] 0 []).2 =
        .ok (stripPrefixOr VERBATIM_PREFIX_W [67, 58, 92, 120]) :=
  c1_round_trip [67, 58, 92, 120] 0 [] rfl

/-- Claim C6: `exists` — an absent path gives `Ok false` without error; a
present entry carrying a reparse buffer gives `Ok true` exactly when its
tag is the mount-point tag and `Ok false` for any other reparse kind; a
plain directory (per the spec-modelled fetch, which reports a
non-mount-point tag for it) also gives `Ok false`, not an error. -/
theorem c6_exists_semantics (fs : Fs) (j : Nat) :
    (fs.lookupEntry j = none → «exists» j fs = .ok false) ∧
      (∀ b : ReparseDataBuffer, fs.lookupEntry j = some (.dir (some b)) →
        («exists» j fs = .ok true ↔
            b.ReparseTag = IO_REPARSE_TAG_MOUNT_POINT) ∧
          (b.ReparseTag ≠ IO_REPARSE_TAG_MOUNT_POINT →
            «exists» j fs = .ok false)) ∧
      (fs.lookupEntry j = some (.dir none) → «exists» j fs = .ok false) := by
  refine ⟨fun h => ?_, fun b hb => ?_, fun h => ?_⟩
  · simp [«exists», h]
  · rw [exists_of_buffer fs j b hb]
    constructor
    · simp [beq_iff_eq]
    · intro hne
      simp [beq_eq_false_iff_ne.mpr hne]
  · have h0 : (0 : Nat) ≠ IO_REPARSE_TAG_MOUNT_POINT := by decide
    simp [«exists», h, open_reparse_point, get_reparse_data_point,
      emptyReparseBuffer, h0]

/-- Claim C6 witness: a four-entry filesystem exercising the absent,
junction, other-reparse-kind and plain-directory cases. -/
theorem c6_exists_semantics_witness :
    «exists» 0 sampleFs = .ok false ∧
      «exists» 1 sampleFs = .ok true ∧
      «exists» 2 sampleFs = .ok false ∧
      «exists» 3 sampleFs = .ok false :=
  ⟨(c6_exists_semantics sampleFs 0).1 rfl,
    ((c6_exists_semantics sampleFs 1).2.1 (mkJunctionBuffer [67]) rfl).1.mpr
      rfl,
    ((c6_exists_semantics sampleFs 2).2.1 otherReparseBuffer rfl).2
      (by decide),
    (c6_exists_semantics sampleFs 3).2.2 rfl⟩

/-- Claim C7: `get_target` — an absent path fails with the not-found
error; a present entry whose fetched tag is not the mount-point tag fails
with the distinct "not a reparse tag mount point" error (whose kind
differs from not-found); a mount-point entry returns the resolved target
path. -/
theorem c7_get_target_errors (fs : Fs) (j : Nat) :
    (fs.lookupEntry j = none →
      get_target j fs = .error ⟨.notFound, "`junction` does not exist"⟩) ∧
      (∀ b : ReparseDataBuffer, fs.lookupEntry j = some (.dir (some b)) →
        (b.ReparseTag ≠ IO_REPARSE_TAG_MOUNT_POINT →
          get_target j fs =
            .error ⟨.otherErr, "not a reparse tag mount point"⟩) ∧
          (b.ReparseTag = IO_REPARSE_TAG_MOUNT_POINT →
            get_target j fs = .ok (stripPrefixOr NT_PREFIX_W
              ((b.PathBuffer.drop (b.SubstituteNameOffset / WCHAR_SIZE)).take
                (b.SubstituteNameLength / WCHAR_SIZE))))) ∧
      (fs.lookupEntry j = some (.dir none) →
        get_target j fs =
          .error ⟨.otherErr, "not a reparse tag mount point"⟩) ∧
      IoErrorKind.otherErr ≠ IoErrorKind.notFound := by
  refine ⟨fun h => ?_, fun b hb => ⟨fun hne => ?_, fun ht => ?_⟩,
    fun h => ?_, by decide⟩
  · simp [get_target, h]
  · simp [get_target, hb, open_reparse_point, get_reparse_data_point, hne]
  · exact get_target_of_buffer fs j b hb ht
  · have h0 : (0 : Nat) ≠ IO_REPARSE_TAG_MOUNT_POINT := by decide
    simp [get_target, h, open_reparse_point, get_reparse_data_point,
      emptyReparseBuffer, h0]

/-- Claim C7 witness: the same four-entry filesystem, exercising absent,
wrong-kind, plain-directory and junction cases. -/
theorem c7_get_target_errors_witness :
    get_target 0 sampleFs =
        .error ⟨.notFound, "`junction` does not exist"⟩ ∧
      get_target 2 sampleFs =
        .error ⟨.otherErr, "not a reparse tag mount point"⟩ ∧
      get_target 3 sampleFs =
        .error ⟨.otherErr, "not a reparse tag mount point"⟩ ∧
      get_target 1 sampleFs =
        .ok (stripPrefixOr NT_PREFIX_W
          (((mkJunctionBuffer [67]).PathBuffer.drop
            ((mkJunctionBuffer [67]).SubstituteNameOffset / WCHAR_SIZE)).take
            ((mkJunctionBuffer [67]).SubstituteNameLength / WCHAR_SIZE))) :=
  ⟨(c7_get_target_errors sampleFs 0).1 rfl,
    ((c7_get_target_errors sampleFs 2).2.1 otherReparseBuffer rfl).1
      (by decide),
    (c7_get_target_errors sampleFs 3).2.2.1 rfl,
    ((c7_get_target_errors sampleFs 1).2.1 (mkJunctionBuffer [67]) rfl).2
      rfl⟩

/-- Claim C8: the decode direction resolves the target from the substitute
name only: for a mount-point buffer it slices exactly
`SubstituteNameLength / 2` units starting at unit offset
`SubstituteNameOffset / 2` out of `PathBuffer` (exactly the claimed byte
counts, the lengths being unit multiples by §3), strips exactly the 4-unit
device-qualification prefix when the slice begins with it, and returns the
slice unmodified otherwise; the print-name fields play no part. -/
theorem c8_decode_substitute_only (fs : Fs) (j : Nat)
    (b : ReparseDataBuffer)
    (hb : fs.lookupEntry j = some (.dir (some b)))
    (ht : b.ReparseTag = IO_REPARSE_TAG_MOUNT_POINT)
    (hrange : b.SubstituteNameOffset / WCHAR_SIZE +
      b.SubstituteNameLength / WCHAR_SIZE ≤ b.PathBuffer.length) :
    get_target j fs =
        .ok (if NT_PREFIX_W.isPrefixOf
            ((b.PathBuffer.drop (b.SubstituteNameOffset / WCHAR_SIZE)).take
              (b.SubstituteNameLength / WCHAR_SIZE)) = true
          then ((b.PathBuffer.drop (b.SubstituteNameOffset / WCHAR_SIZE)).take
              (b.SubstituteNameLength / WCHAR_SIZE)).drop NT_PREFIX_W.length
          else (b.PathBuffer.drop (b.SubstituteNameOffset / WCHAR_SIZE)).take
              (b.SubstituteNameLength / WCHAR_SIZE)) ∧
      ((b.PathBuffer.drop (b.SubstituteNameOffset / WCHAR_SIZE)).take
          (b.SubstituteNameLength / WCHAR_SIZE)).length =
        b.SubstituteNameLength / WCHAR_SIZE := by
  constructor
  · rw [get_target_of_buffer fs j b hb ht]
    rfl
  · rw [List.length_take, List.length_drop]
    omega

/-- Claim C8 witness: a junction whose buffer was produced by the encoder.
-/
theorem c8_decode_substitute_only_witness :
    get_target 1 sampleFs =
        .ok (if NT_PREFIX_W.isPrefixOf
            (((mkJunctionBuffer [67]).PathBuffer.drop
              ((mkJunctionBuffer [67]).SubstituteNameOffset / WCHAR_SIZE)).take
              ((mkJunctionBuffer [67]).SubstituteNameLength / WCHAR_SIZE)) = true
          then (((mkJunctionBuffer [67]).PathBuffer.drop
              ((mkJunctionBuffer [67]).SubstituteNameOffset / WCHAR_SIZE)).take
              ((mkJunctionBuffer [67]).SubstituteNameLength / WCHAR_SIZE)).drop
            NT_PREFIX_W.length
          else ((mkJunctionBuffer [67]).PathBuffer.drop
              ((mkJunctionBuffer [67]).SubstituteNameOffset / WCHAR_SIZE)).take
              ((mkJunctionBuffer [67]).SubstituteNameLength / WCHAR_SIZE)) ∧
      (((mkJunctionBuffer [67]).PathBuffer.drop
          ((mkJunctionBuffer [67]).SubstituteNameOffset / WCHAR_SIZE)).take
          ((mkJunctionBuffer [67]).SubstituteNameLength / WCHAR_SIZE)).length =
        (mkJunctionBuffer [67]).SubstituteNameLength / WCHAR_SIZE :=
  c8_decode_substitute_only sampleFs 1 (mkJunctionBuffer [67]) rfl rfl (by decide)

end Junction
